import Mathlib

/-!
# Verification of the YatriGuard fallback safety core

Shallow embedding of the rule-based safety components of the repository:

* `backend/fallback_systems/red_zone_fallback.py` (`RedZoneSystemFallback`):
  zone store, ray-casting point-in-polygon, breach / nearby queries,
  `add_zone` / `remove_zone`.
* `backend/fallback_systems/rule_based_fallback.py` (`RuleBasedSystemFallback`):
  per-user buffer and the fall / crash / distress detectors.
* `backend/utils/geo_utils.py` (`GeoUtils.point_in_polygon`).

Modelling conventions:

* Python floats are modelled as exact rationals (`ℚ`).  All numeric
  comparisons made by the embedded code are far from binary-rounding
  boundaries, and the decision structure of the code is unchanged by the
  exact model.
* IMU G-force magnitudes are computed in the source as
  `sqrt(ax² + ay² + az²)` and only ever compared against positive
  thresholds.  Since `sqrt m < t ↔ m < t²` and `sqrt m > t ↔ m > t²`
  for `m ≥ 0 ≤ t`, the embedding carries the squared magnitude and
  compares it against the squared threshold, which is exact.
* Wall-clock reads (`datetime.utcnow()`) are modelled by an explicit
  `now : ℚ` parameter (seconds); `timedelta(hours=24)` is `86400`.
* Python exceptions raised inside component bodies are modelled with
  `Except Unit`; the `try/except` blocks of the public operations map
  `Except.error` to the source's safe default return value.
* The Haversine distance helper (`_calculate_distance`) is transcendental
  (sin/cos/atan2); no claim depends on its numeric value, so functions
  that call it take the distance computation as an explicit (possibly
  failing) function parameter.
* Alert dictionaries are embedded as an `Alert` structure carrying the
  fields the claims mention; the `timestamp` field (a wall-clock read)
  and the `details` sub-dictionary are not modelled.
-/

set_option autoImplicit false

/-- A `{'lat': float, 'lng': float}` vertex dictionary. -/
structure Coord where
  lat : ℚ
  lng : ℚ
deriving DecidableEq, Repr

/-- One entry of `RedZoneSystemFallback.red_zones`. The Python key `type`
is rendered as `ztype`. -/
structure Zone where
  id : Nat
  name : String
  ztype : String
  coordinates : List Coord
  riskLevel : Nat
deriving DecidableEq, Repr

/-- Argument dictionary of `add_zone`; `none` fields model absent keys,
defaulted by `zone_data.get(...)` inside `add_zone`. -/
structure ZoneData where
  name : Option String
  ztype : Option String
  coordinates : Option (List Coord)
  riskLevel : Option Nat
deriving DecidableEq, Repr

/-- Result dictionary of `get_zone_info`. -/
structure ZoneInfo where
  zoneId : Option Nat
  zoneName : String
  zoneType : String
  riskLevel : Nat
  breachDetected : Bool
deriving DecidableEq, Repr

/-- One entry of the list returned by `get_nearby_zones`. -/
structure NearbyZone where
  zoneId : Nat
  zoneName : String
  zoneType : String
  riskLevel : Nat
  distanceKm : ℚ
  coordinates : List Coord
deriving DecidableEq, Repr

/-- The seed list loaded by `RedZoneSystemFallback.initialize`. -/
def seededZones : List Zone :=
  [ { id := 1, name := "Military Zone Alpha", ztype := "Military",
      coordinates :=
        [⟨26.9124, 75.7873⟩, ⟨26.9150, 75.7900⟩, ⟨26.9100, 75.7950⟩, ⟨26.9080, 75.7920⟩],
      riskLevel := 5 },
    { id := 2, name := "Wildlife Sanctuary - Restricted Area", ztype := "Wildlife",
      coordinates :=
        [⟨26.9200, 75.8000⟩, ⟨26.9250, 75.8050⟩, ⟨26.9200, 75.8100⟩, ⟨26.9150, 75.8050⟩],
      riskLevel := 3 },
    { id := 3, name := "Border Security Zone", ztype := "Border",
      coordinates :=
        [⟨28.0000, 70.5000⟩, ⟨28.0200, 70.5200⟩, ⟨28.0100, 70.5400⟩, ⟨27.9900, 70.5200⟩],
      riskLevel := 4 },
    { id := 4, name := "Mining Area - Dangerous", ztype := "Industrial",
      coordinates :=
        [⟨25.5000, 74.5000⟩, ⟨25.5100, 74.5100⟩, ⟨25.5050, 74.5200⟩, ⟨25.4950, 74.5100⟩],
      riskLevel := 3 } ]

/-- One loop iteration of `_point_in_polygon_ray_casting`: does edge
`(p1, p2)` toggle the `inside` flag for query point `(x, y) = (lng, lat)`?
The source assigns `xinters` under a `p1y != p2y` guard; inside the outer
two comparisons `p1y ≠ p2y` always holds (otherwise `min = max` and
`y > min ∧ y ≤ max` is impossible), so inlining the formula is exact and
the stale-`xinters` path of the Python code is unreachable. -/
def crossesRay (x y : ℚ) (p1 p2 : Coord) : Bool :=
  decide (min p1.lat p2.lat < y ∧ y ≤ max p1.lat p2.lat ∧ x ≤ max p1.lng p2.lng ∧
    (p1.lng = p2.lng ∨ x ≤ (y - p1.lat) * (p2.lng - p1.lng) / (p2.lat - p1.lat) + p1.lng))

/-- The edges `(polygon[i-1], polygon[i % n])`, `i = 1..n`, scanned by the
ray-casting loop. -/
def polygonEdges : List Coord → List (Coord × Coord)
  | [] => []
  | p0 :: rest => (p0 :: rest).zip (rest ++ [p0])

/-- The loop body shared verbatim by `GeoUtils.point_in_polygon` and
`RedZoneSystemFallback._point_in_polygon_ray_casting` (the repository
duplicates the algorithm; see spec §9). -/
def rayCastInside (lat lng : ℚ) (poly : List Coord) : Bool :=
  (polygonEdges poly).foldl (fun ins e => if crossesRay lng lat e.1 e.2 then !ins else ins) false

/-- Embedding of `_point_in_polygon_ray_casting(lat, lng, polygon)`: reading
`polygon[0]` of an empty polygon raises `IndexError`, modelled as
`Except.error`; there is no `try` in this helper, so the error reaches
the caller. -/
def rayCasting (lat lng : ℚ) (poly : List Coord) : Except Unit Bool :=
  match poly with
  | [] => .error ()
  | _ :: _ => .ok (rayCastInside lat lng poly)

/-- Embedding of `GeoUtils.point_in_polygon(lat, lon, polygon)`: guarded by
`if len(polygon) < 3: return False`, then the same ray-casting loop;
the surrounding `try/except` (returning `False`) has no reachable error
source once the guard has run. -/
def point_in_polygon (lat lng : ℚ) (poly : List Coord) : Bool :=
  if poly.length < 3 then false else rayCastInside lat lng poly

/-- Body of the `for zone in self.red_zones` loop of
`check_point_in_polygon`: first containing zone short-circuits to `True`;
a ray-casting exception propagates out of the loop. -/
def breachAnyExc : List Zone → ℚ → ℚ → Except Unit Bool
  | [], _, _ => .ok false
  | z :: rest, lat, lng =>
    match rayCasting lat lng z.coordinates with
    | .error e => .error e
    | .ok true => .ok true
    | .ok false => breachAnyExc rest lat lng

/-- Embedding of `check_point_in_polygon(lat, lng)` over a zone list: the `except`
branch returns `False`. -/
def check_point_in_polygon (zones : List Zone) (lat lng : ℚ) : Bool :=
  match breachAnyExc zones lat lng with
  | .ok b => b
  | .error _ => false

/-- Loop of `get_zone_info`: first containing zone, or `none` if the scan
completes without a match; exceptions propagate. -/
def findZoneExc : List Zone → ℚ → ℚ → Except Unit (Option Zone)
  | [], _, _ => .ok none
  | z :: rest, lat, lng =>
    match rayCasting lat lng z.coordinates with
    | .error e => .error e
    | .ok true => .ok (some z)
    | .ok false => findZoneExc rest lat lng

/-- The breach dictionary `get_zone_info` builds for a containing zone. -/
def breachInfo (z : Zone) : ZoneInfo :=
  { zoneId := some z.id, zoneName := z.name, zoneType := z.ztype,
    riskLevel := z.riskLevel, breachDetected := true }

/-- The `'Safe Area'` dictionary returned when no zone contains the point. -/
def safeArea : ZoneInfo :=
  { zoneId := none, zoneName := "Safe Area", zoneType := "Safe",
    riskLevel := 0, breachDetected := false }

/-- Embedding of `get_zone_info(lat, lng)`: first containing zone's info, the safe-area
dictionary when none contains, and Python `None` (here `none`) from the
`except` branch. -/
def get_zone_info (zones : List Zone) (lat lng : ℚ) : Option ZoneInfo :=
  match findZoneExc zones lat lng with
  | .ok (some z) => some (breachInfo z)
  | .ok none => some safeArea
  | .error _ => none

/-- Embedding of `_calculate_polygon_center`: arithmetic mean of the vertices, with the
explicit `{'lat': 0, 'lng': 0}` default for an empty polygon. -/
def polygonCenter (poly : List Coord) : Coord :=
  match poly with
  | [] => ⟨0, 0⟩
  | _ :: _ =>
    ⟨(poly.map Coord.lat).sum / poly.length, (poly.map Coord.lng).sum / poly.length⟩

/-- Accumulation loop of `get_nearby_zones`, parametrised by the Haversine
helper `dist lat1 lng1 lat2 lng2` (transcendental in the source, and the
only operation of the loop body that can raise). -/
def nearbyCollect (dist : ℚ → ℚ → ℚ → ℚ → Except Unit ℚ) :
    List Zone → ℚ → ℚ → ℚ → Except Unit (List NearbyZone)
  | [], _, _, _ => .ok []
  | z :: rest, lat, lng, radiusKm =>
    let c := polygonCenter z.coordinates
    match dist lat lng c.lat c.lng with
    | .error e => .error e
    | .ok d =>
      match nearbyCollect dist rest lat lng radiusKm with
      | .error e => .error e
      | .ok tail =>
        .ok (if d ≤ radiusKm then
          { zoneId := z.id, zoneName := z.name, zoneType := z.ztype,
            riskLevel := z.riskLevel, distanceKm := d,
            coordinates := z.coordinates } :: tail
        else tail)

/-- The `try` body of `get_nearby_zones`: collect zones within the radius, then
sort ascending by `distance_km` (Python's stable `sort`). -/
def nearbyExc (dist : ℚ → ℚ → ℚ → ℚ → Except Unit ℚ)
    (zones : List Zone) (lat lng radiusKm : ℚ) : Except Unit (List NearbyZone) :=
  match nearbyCollect dist zones lat lng radiusKm with
  | .error e => .error e
  | .ok l => .ok (l.mergeSort (fun a b => a.distanceKm ≤ b.distanceKm))

/-- Embedding of `get_nearby_zones(lat, lng, radius_km)`: the `except` branch returns
the empty list. -/
def get_nearby_zones (dist : ℚ → ℚ → ℚ → ℚ → Except Unit ℚ)
    (zones : List Zone) (lat lng radiusKm : ℚ) : List NearbyZone :=
  match nearbyExc dist zones lat lng radiusKm with
  | .ok l => l
  | .error _ => []

/-- Embedding of `add_zone(zone_data)`: builds the new zone with `id = len(zones) + 1`
and the `.get` defaults, rejects polygons with fewer than 3 vertices,
otherwise appends.  Returns the updated zone list and the success flag. -/
def add_zone (zones : List Zone) (zoneData : ZoneData) : List Zone × Bool :=
  let newZone : Zone :=
    { id := zones.length + 1,
      name := zoneData.name.getD "New Zone",
      ztype := zoneData.ztype.getD "Custom",
      coordinates := zoneData.coordinates.getD [],
      riskLevel := zoneData.riskLevel.getD 3 }
  if newZone.coordinates.length < 3 then (zones, false)
  else (zones ++ [newZone], true)

/-- Embedding of `remove_zone(zone_id)`: keeps every zone whose id differs; always
reports success. -/
def remove_zone (zones : List Zone) (zoneId : Nat) : List Zone × Bool :=
  (zones.filter (fun z => z.id ≠ zoneId), true)

/-- One IMU sample dictionary.  The gyroscope fields are never read by the
fallback detectors and are left out of the model. -/
structure ImuSample where
  ax : ℚ
  ay : ℚ
  az : ℚ
deriving DecidableEq, Repr

/-- A `location` dictionary (`latitude`, `longitude`, `speed`). -/
structure Location where
  latitude : ℚ
  longitude : ℚ
  speed : ℚ
deriving DecidableEq, Repr

/-- A `sensor_data` dictionary; `none` models an absent/null `location`. -/
structure SensorData where
  location : Option Location
  imuData : List ImuSample
deriving DecidableEq, Repr

/-- One `{'timestamp': ..., 'sensor_data': ...}` entry of `data_history`. -/
structure DataItem where
  timestamp : ℚ
  sensorData : SensorData
deriving DecidableEq, Repr

/-- One `{'timestamp': ..., 'location': ...}` entry of `locations`. -/
structure LocItem where
  timestamp : ℚ
  location : Location
deriving DecidableEq, Repr

/-- One entry of `user_data_buffer` (keyed by user id). -/
structure UserBuffer where
  dataHistory : List DataItem
  locations : List LocItem
  lastActivity : ℚ
deriving DecidableEq, Repr

/-- Alert dictionary (fields used by the claims; `timestamp`/`details`
omitted, see the header). -/
structure Alert where
  userId : String
  alertType : String
  priority : String
  confidence : ℚ
  message : String
  detectionMethod : String
deriving DecidableEq, Repr

/-- Shape of `detection_thresholds` at key `fall`, from `initialize`. -/
structure FallThresholds where
  freefall_g_min : ℚ
  freefall_g_max : ℚ
  impact_g_threshold : ℚ
  freefall_duration_min : ℚ
  stillness_threshold : ℚ
  stillness_duration : ℚ
deriving DecidableEq, Repr

/-- The initialized fall thresholds. -/
def fallThresholds : FallThresholds :=
  { freefall_g_min := 0.5, freefall_g_max := 2, impact_g_threshold := 15,
    freefall_duration_min := 0.3, stillness_threshold := 2, stillness_duration := 3 }

/-- Shape of `detection_thresholds` at key `crash`, from `initialize`. -/
structure CrashThresholds where
  min_vehicle_speed : ℚ
  deceleration_threshold : ℚ
  impact_g_threshold : ℚ
  speed_drop_percentage : ℚ
  time_window : ℚ
deriving DecidableEq, Repr

/-- The initialized crash thresholds. -/
def crashThresholds : CrashThresholds :=
  { min_vehicle_speed := 25, deceleration_threshold := -8,
    impact_g_threshold := 20, speed_drop_percentage := 0.8, time_window := 3 }

/-- Squared G-force magnitude of a sample (see the header: the source's
`sqrt` magnitude is only compared against positive thresholds, so the
embedding squares both sides). -/
def magnitudeSq (s : ImuSample) : ℚ :=
  s.ax * s.ax + s.ay * s.ay + s.az * s.az

/-- Python slice `l[a:b]` for `0 ≤ a ≤ b` (clamped at the end of the
list, as in Python). -/
def pySlice {α : Type} (l : List α) (a b : Nat) : List α :=
  (l.drop a).take (b - a)

/-- Python slice `l[-n:]`: the last `n` elements (the whole list when it
is shorter). -/
def takeLast {α : Type} (n : Nat) (l : List α) : List α :=
  l.drop (l.length - n)

/-- Python `max(l)` over a nonempty list (`0` is never used by callers on
the empty list; it mirrors `max(speeds) if speeds else 0`). -/
def pyMax (l : List ℚ) : ℚ :=
  match l with
  | [] => 0
  | h :: t => t.foldl max h

/-- One iteration of the fall-pattern scan of `_detect_fall_rule_based` at
start offset `i` over the (squared) magnitude series: freefall window
`mags[i:i+3]` all below `freefall_g_max`, impact window `mags[i+3:i+5]`
containing a sample above `impact_g_threshold`, the guard
`i + 10 < len(mags)`, and stillness window `mags[i+5:i+10]` all below
`stillness_threshold`. -/
def fallMatchAt (t : FallThresholds) (mags : List ℚ) (i : Nat) : Bool :=
  (pySlice mags i (i + 3)).all (fun g => decide (g < t.freefall_g_max * t.freefall_g_max)) &&
    ((pySlice mags (i + 3) (i + 5)).any (fun g => decide (g > t.impact_g_threshold * t.impact_g_threshold)) &&
      (decide (i + 10 < mags.length) &&
        (pySlice mags (i + 5) (i + 10)).all (fun g => decide (g < t.stillness_threshold * t.stillness_threshold))))

/-- Embedding of `_detect_fall_rule_based(user_id, imu_data)`: requires at least 10
samples, scans start offsets `0..len-6` and stops at the first full
three-phase match (`List.any` — the loop `break`s on the first match and
the produced alert does not depend on the offset), emitting the
fixed-confidence `fall_detected` alert. -/
def detectFall (t : FallThresholds) (userId : String) (imuData : List ImuSample) : Option Alert :=
  if imuData.length < 10 then none
  else
    let mags := imuData.map magnitudeSq
    if (List.range (mags.length - 5)).any (fallMatchAt t mags) then
      some { userId := userId, alertType := "fall_detected", priority := "critical",
             confidence := 0.75, message := "Fall detected using rule-based system",
             detectionMethod := "rule_based" }
    else none

/-- Embedding of `_update_user_buffer(user_id, sensor_data)` acting on this user's
buffer entry; `none` models `user_id not in self.user_data_buffer`, in
which case the fresh empty buffer is created first. -/
def updateUserBuffer (now : ℚ) (buf : Option UserBuffer) (sd : SensorData) : UserBuffer :=
  let b := buf.getD { dataHistory := [], locations := [], lastActivity := now }
  let dataHistory :=
    (b.dataHistory ++ [({ timestamp := now, sensorData := sd } : DataItem)]).filter
      (fun it => decide (now - 86400 < it.timestamp))
  let locations :=
    match sd.location with
    | some loc => takeLast 100 (b.locations ++ [({ timestamp := now, location := loc } : LocItem)])
    | none => b.locations
  { dataHistory := dataHistory, locations := locations, lastActivity := now }

/-- Embedding of `_get_recent_user_data(user_id, seconds)`: sensor data of the buffer
entries newer than `now - seconds` (empty for an unknown user). -/
def getRecentUserData (now : ℚ) (buf : Option UserBuffer) (seconds : ℚ) : List SensorData :=
  match buf with
  | none => []
  | some b =>
    (b.dataHistory.filter (fun it => decide (now - seconds < it.timestamp))).map
      DataItem.sensorData

/-- The `speeds` list of `_detect_crash_rule_based`:
`data.get('location', {}).get('speed', 0)` over `recent_data[-5:]`. -/
def recentSpeeds (now : ℚ) (buf : Option UserBuffer) : List ℚ :=
  (takeLast 5 (getRecentUserData now buf 30)).map
    (fun sd => (sd.location.map Location.speed).getD 0)

/-- Python expression `max(speeds) if speeds else 0` of the crash detector. -/
def maxRecentSpeed (now : ℚ) (buf : Option UserBuffer) : ℚ :=
  pyMax (recentSpeeds now buf)

/-- Embedding of `_detect_crash_rule_based(user_id, sensor_data)`.  `speeds[-1]` and
`speeds[0]` sit under the `len(speeds) >= 2` guard, so the `getD 0`
defaults are never taken.  The G-force comparison carries squared
magnitudes (header note); `3.6` is `18/5` and `time_diff = 5.0`. -/
def detectCrash (t : CrashThresholds) (userId : String) (now : ℚ)
    (buf : Option UserBuffer) (sd : SensorData) : Option Alert :=
  let recentData := getRecentUserData now buf 30
  if recentData.length < 5 then none
  else
    let speeds := recentSpeeds now buf
    if maxRecentSpeed now buf < t.min_vehicle_speed then none
    else if 2 ≤ speeds.length then
      let speedChange := (speeds.getLast?.getD 0) - (speeds.head?.getD 0)
      let timeDiff : ℚ := 5
      let deceleration := speedChange / timeDiff * (18 / 5)
      if deceleration < t.deceleration_threshold then
        let maxGForceSq := (takeLast 10 sd.imuData).foldl (fun m s => max m (magnitudeSq s)) 0
        if maxGForceSq > t.impact_g_threshold * t.impact_g_threshold then
          some { userId := userId, alertType := "crash_detected", priority := "critical",
                 confidence := 0.8, message := "Vehicle crash detected using rule-based system",
                 detectionMethod := "rule_based" }
        else none
      else none
    else none

/-- Number of true distress indicators. -/
def indicatorCount (inactive erratic unusual signalLoss : Bool) : Nat :=
  inactive.toNat + erratic.toNat + unusual.toNat + signalLoss.toNat

/-- Summed confidence increments (0.3 / 0.2 / 0.3 / 0.2). -/
def indicatorConfidence (inactive erratic unusual signalLoss : Bool) : ℚ :=
  (if inactive then 0.3 else 0) + (if erratic then 0.2 else 0) +
    (if unusual then 0.3 else 0) + (if signalLoss then 0.2 else 0)

/-- Embedding of `_detect_distress_rule_based(user_id, sensor_data)`.  The four Boolean
parameters are the outcomes of the four history checks exactly as the
aggregation sees them: `_check_prolonged_inactivity`,
`_check_erratic_movement`, `_check_unusual_location` conjoined with the
presence of `sensor_data['location']` (the source only runs that check
when location data is present), and `_check_signal_loss_pattern`.  The
checks themselves traverse the user buffer with Haversine/bearing
geometry and are not the subject of any claim; the aggregation below is
embedded verbatim. -/
def detectDistress (userId : String) (inactive erratic unusual signalLoss : Bool) : Option Alert :=
  let indicators : List String :=
    (if inactive then ["prolonged_inactivity"] else []) ++
      (if erratic then ["erratic_movement"] else []) ++
        (if unusual then ["unusual_location"] else []) ++
          (if signalLoss then ["signal_loss_pattern"] else [])
  let confidence : ℚ :=
    (if inactive then 0.3 else 0) + (if erratic then 0.2 else 0) +
      (if unusual then 0.3 else 0) + (if signalLoss then 0.2 else 0)
  if 2 ≤ indicators.length ∨ confidence > 0.5 then
    some { userId := userId, alertType := "distress_detected", priority := "medium",
           confidence := min confidence 0.9,
           message := "Distress indicators detected: " ++ String.intercalate ", " indicators,
           detectionMethod := "rule_based" }
  else none

/-! ## Helper lemmas -/

/-- A degenerate edge from a vertex to itself never toggles the flag. -/
theorem crossesRay_self (x y : ℚ) (a : Coord) : crossesRay x y a a = false := by
  rw [crossesRay, decide_eq_false_iff_not]
  rintro ⟨h1, h2, -⟩
  rw [min_self] at h1
  rw [max_self] at h2
  exact absurd (h1.trans_le h2) (lt_irrefl _)

/-- Toggling is invariant under reversing the edge: the `xinters`
intersection abscissa is a point of the same line, so the source's
crossing test does not depend on edge orientation. -/
theorem crossesRay_comm (x y : ℚ) (a b : Coord) :
    crossesRay x y a b = crossesRay x y b a := by
  have key : ∀ p q : Coord, crossesRay x y p q = true → crossesRay x y q p = true := by
    intro p q h
    rw [crossesRay, decide_eq_true_eq] at h ⊢
    obtain ⟨h1, h2, h3, h4⟩ := h
    have hne : p.lat ≠ q.lat := by
      intro he
      rw [he, min_self] at h1
      rw [he, max_self] at h2
      exact absurd (h1.trans_le h2) (lt_irrefl _)
    refine ⟨by rwa [min_comm], by rwa [max_comm], by rwa [max_comm], ?_⟩
    rcases h4 with h4 | h4
    · exact Or.inl h4.symm
    · right
      have hsub : q.lat - p.lat ≠ 0 := sub_ne_zero.mpr (Ne.symm hne)
      have hsub2 : p.lat - q.lat ≠ 0 := sub_ne_zero.mpr hne
      have heq : (y - p.lat) * (q.lng - p.lng) / (q.lat - p.lat) + p.lng
          = (y - q.lat) * (p.lng - q.lng) / (p.lat - q.lat) + q.lng := by
        field_simp
        ring
      rwa [← heq]
  cases hab : crossesRay x y a b
  · cases hba : crossesRay x y b a
    · rfl
    · exact absurd (key b a hba) (by simp [hab])
  · exact (key a b hab).symm

/-- On a nonempty polygon the ray-casting helper does not raise. -/
theorem rayCasting_ok (lat lng : ℚ) (poly : List Coord) (h : poly ≠ []) :
    rayCasting lat lng poly = .ok (rayCastInside lat lng poly) := by
  rcases poly with _ | ⟨a, rest⟩
  · exact absurd rfl h
  · rfl

/-- A Python `l[-n:]` slice has at most `n` elements. -/
theorem takeLast_length_le {α : Type} (n : Nat) (l : List α) :
    (takeLast n l).length ≤ n := by
  simp only [takeLast, List.length_drop]
  omega

/-! ## Claim theorems -/

/-- C8: for every point and every polygon with fewer than 3 vertices
(including the empty and 2-vertex polygons), the point-in-polygon test
returns false: `GeoUtils.point_in_polygon` returns `False` outright, and
the un-guarded ray-casting loop shared with
`_point_in_polygon_ray_casting` also yields `False` on every nonempty
such polygon (each degenerate edge pair toggles the flag an even number
of times). -/
theorem c8_small_polygon_false (lat lng : ℚ) (poly : List Coord) (h : poly.length < 3) :
    point_in_polygon lat lng poly = false ∧
      (poly ≠ [] → rayCasting lat lng poly = .ok false) := by
  have hinside : rayCastInside lat lng poly = false := by
    rcases poly with _ | ⟨a, _ | ⟨b, _ | ⟨c, rest⟩⟩⟩
    · rfl
    · have he : polygonEdges [a] = [(a, a)] := rfl
      rw [rayCastInside, he]
      simp [crossesRay_self]
    · have he : polygonEdges [a, b] = [(a, b), (b, a)] := rfl
      rw [rayCastInside, he]
      simp only [List.foldl]
      rw [crossesRay_comm lng lat b a]
      cases hc : crossesRay lng lat a b <;> simp [hc]
    · exact absurd h (by simp)
  refine ⟨by simp [point_in_polygon, h, hinside], fun hne => ?_⟩
  rw [rayCasting_ok lat lng poly hne, hinside]

/-- C8 witness: a 2-vertex polygon at a point that lies between the two
vertices' latitude band (so the toggling branch is actually reached). -/
theorem c8_small_polygon_false_witness :
    point_in_polygon 3 4 [(⟨0, 0⟩ : Coord), ⟨10, 7⟩] = false ∧
      rayCasting 3 4 [(⟨0, 0⟩ : Coord), ⟨10, 7⟩] = .ok false := by
  have h := c8_small_polygon_false 3 4 [(⟨0, 0⟩ : Coord), ⟨10, 7⟩] (by decide)
  exact ⟨h.1, h.2 (by decide)⟩

/-- C9: `remove_zone` is idempotent (removing the same id twice leaves the
same end state as removing it once) and reports success even when no zone
with that id exists. -/
theorem c9_remove_zone_idempotent (zones : List Zone) (zoneId : Nat) :
    remove_zone (remove_zone zones zoneId).1 zoneId = remove_zone zones zoneId ∧
      (remove_zone zones zoneId).2 = true := by
  refine ⟨?_, rfl⟩
  simp [remove_zone, List.filter_filter]

/-- Argument of `add_zone` in the duplicate-id run: a valid triangle. -/
def c2AddedZoneData : ZoneData :=
  { name := some "Test Zone", ztype := none,
    coordinates := some [⟨0, 0⟩, ⟨0, 1⟩, ⟨1, 0⟩], riskLevel := none }

/-- C2 (failing run): starting from the seeded store, `remove_zone 2`
followed by a successful `add_zone` assigns the new zone
`id = len(zones) + 1 = 4`, duplicating the id of the still-present
seeded zone 4 — the resulting id list is `[1, 3, 4, 4]`, which is not
duplicate-free. -/
theorem c2_duplicate_id_failing :
    ((add_zone (remove_zone seededZones 2).1 c2AddedZoneData).1.map Zone.id = [1, 3, 4, 4]) ∧
      (add_zone (remove_zone seededZones 2).1 c2AddedZoneData).2 = true ∧
      ¬ ((add_zone (remove_zone seededZones 2).1 c2AddedZoneData).1.map Zone.id).Nodup := by
  refine ⟨by decide, by decide, by decide⟩

/-- The spec's C1 synthetic sequence: 10 samples of magnitude 1, then 5 of
magnitude 25, then 15 of magnitude 10 (accelerations along one axis, so
the magnitudes are exact). -/
def c1Seq : List ImuSample :=
  List.replicate 10 ⟨1, 0, 0⟩ ++ List.replicate 5 ⟨25, 0, 0⟩ ++ List.replicate 15 ⟨10, 0, 0⟩

/-- A sequence the code does detect: 10 freefall samples of magnitude 1,
one impact sample of magnitude 25, then 7 still samples of magnitude 1. -/
def c1AmendedSeq : List ImuSample :=
  List.replicate 10 ⟨1, 0, 0⟩ ++ [⟨25, 0, 0⟩] ++ List.replicate 7 ⟨1, 0, 0⟩

/-- C1 counterexample: under the initialized thresholds the spec's
30-sample sequence yields NO fall alert — the claimed `fall_detected`
alert with confidence 0.75 is not produced.  (The post-impact samples of
magnitude 10 exceed `stillness_threshold = 2.0`, and the 5-sample impact
run overlaps every candidate stillness window `mags[i+5:i+10]`.) -/
theorem c1_fall_sequence_counterexample :
    detectFall fallThresholds "user" c1Seq = none := by
  with_unfolding_all decide

/-- C1 (amended): the spec's 10/5/15 sequence at magnitudes 1/25/10 yields
no alert; a sequence whose post-impact samples are below the stillness
threshold and whose impact run fits the 2-sample impact window (10 samples
of magnitude 1, one of 25, seven of 1) yields exactly one `fall_detected`
alert with confidence 0.75 (the detector emits at most one alert per
invocation). -/
theorem c1_fall_sequence_amended :
    detectFall fallThresholds "user" c1AmendedSeq =
        some { userId := "user", alertType := "fall_detected", priority := "critical",
               confidence := 0.75, message := "Fall detected using rule-based system",
               detectionMethod := "rule_based" } ∧
      detectFall fallThresholds "user" c1Seq = none := by
  refine ⟨by with_unfolding_all decide, by with_unfolding_all decide⟩

/-- C10: with fewer than 11 IMU samples — including exactly 10, the
documented minimum — the fall detector returns no alert whatever the
sample values and thresholds are: below 10 samples the guard returns, and
at exactly 10 the stillness phase requires `i + 10 < len`, which no scan
offset satisfies. -/
theorem c10_insufficient_samples (t : FallThresholds) (userId : String)
    (imuData : List ImuSample) (h : imuData.length < 11) :
    detectFall t userId imuData = none := by
  by_cases h10 : imuData.length < 10
  · simp [detectFall, h10]
  · have hlen : imuData.length = 10 := by omega
    have hmatch : ∀ i, i < imuData.length - 5 →
        fallMatchAt t (imuData.map magnitudeSq) i = false := by
      intro i _
      have hguard : ¬ (i + 10 < imuData.length) := by omega
      simp [fallMatchAt, hguard]
    simp [detectFall, h10]
    exact hmatch

/-- C10 witness: exactly 10 samples that contain a full
freefall-impact-stillness shape still produce no alert. -/
theorem c10_insufficient_samples_witness :
    detectFall fallThresholds "user"
      [⟨1, 0, 0⟩, ⟨1, 0, 0⟩, ⟨1, 0, 0⟩, ⟨25, 0, 0⟩, ⟨1, 0, 0⟩,
       ⟨1, 0, 0⟩, ⟨1, 0, 0⟩, ⟨1, 0, 0⟩, ⟨1, 0, 0⟩, ⟨1, 0, 0⟩] = none :=
  c10_insufficient_samples fallThresholds "user" _ (by decide)

/-- A buffer state holding one location recorded at time 0. -/
def c3Buf : UserBuffer :=
  { dataHistory := [], locations := [⟨0, ⟨0, 0, 0⟩⟩], lastActivity := 0 }

/-- C3 counterexample: a buffer update at `now = 90000` s keeps a location
entry recorded at time 0 — more than 24 hours (86400 s) old — because the
location history is only trimmed to its last 100 entries and never
age-filtered.  This falsifies "each user's ... location history contain
no entry older than 24 hours" at a concrete input. -/
theorem c3_buffer_counterexample :
    ¬ (∀ it ∈ (updateUserBuffer 90000 (some c3Buf)
          { location := some ⟨0, 0, 0⟩, imuData := [] }).locations,
        (90000 : ℚ) - 86400 < it.timestamp) := by
  intro h
  exact absurd (h ⟨0, ⟨0, 0, 0⟩⟩ (by with_unfolding_all decide))
    (by with_unfolding_all decide)

/-- C3 (amended): after every buffer update the sensor-data history
contains no entry older than 24 hours (it carries no count cap), and the
location history is capped at the most recent 100 entries — an invariant
preserved from any state satisfying it — but is not age-filtered, so
location entries older than 24 hours may remain. -/
theorem c3_buffer_bounds_amended (now : ℚ) (buf : Option UserBuffer) (sd : SensorData)
    (h : ∀ b, buf = some b → b.locations.length ≤ 100) :
    (∀ it ∈ (updateUserBuffer now buf sd).dataHistory, now - 86400 < it.timestamp) ∧
      (updateUserBuffer now buf sd).locations.length ≤ 100 := by
  constructor
  · intro it hit
    simp only [updateUserBuffer] at hit
    have hmem := List.mem_filter.mp hit
    simpa using hmem.2
  · have hb : (buf.getD ⟨[], [], now⟩).locations.length ≤ 100 := by
      rcases buf with _ | b0
      · simp
      · simpa using h b0 rfl
    simp only [updateUserBuffer]
    rcases hloc : sd.location with _ | loc
    · simpa using hb
    · simpa using takeLast_length_le 100 _

/-- C3 witness for the amended theorem, at the counterexample state. -/
theorem c3_buffer_bounds_amended_witness :
    (∀ it ∈ (updateUserBuffer 90000 (some c3Buf)
          { location := some ⟨0, 0, 0⟩, imuData := [] }).dataHistory,
        (90000 : ℚ) - 86400 < it.timestamp) ∧
      (updateUserBuffer 90000 (some c3Buf)
          { location := some ⟨0, 0, 0⟩, imuData := [] }).locations.length ≤ 100 :=
  c3_buffer_bounds_amended 90000 (some c3Buf) _
    (by intro b hb; cases hb; decide)

/-- C4: the distress detector emits an alert exactly when at least 2 of
the four indicators hold or the summed confidence increments exceed 0.5,
and the emitted alert's confidence is the sum capped at 0.9; with fewer
than 2 indicators and a sum not above 0.5 no alert is emitted.  (With the
increments 0.3/0.2/0.3/0.2 a single indicator never exceeds 0.5, so the
confidence disjunct never fires alone, but the equivalence is proved for
all 16 indicator combinations.) -/
theorem c4_distress_trigger (userId : String) (inactive erratic unusual signalLoss : Bool) :
    (2 ≤ indicatorCount inactive erratic unusual signalLoss ∨
        (0.5 : ℚ) < indicatorConfidence inactive erratic unusual signalLoss →
      (detectDistress userId inactive erratic unusual signalLoss).map Alert.confidence =
        some (min (indicatorConfidence inactive erratic unusual signalLoss) 0.9)) ∧
      (indicatorCount inactive erratic unusual signalLoss < 2 ∧
          ¬ ((0.5 : ℚ) < indicatorConfidence inactive erratic unusual signalLoss) →
        detectDistress userId inactive erratic unusual signalLoss = none) := by
  cases inactive <;> cases erratic <;> cases unusual <;> cases signalLoss <;>
    constructor <;> intro h <;>
      first
        | exact absurd h (by with_unfolding_all decide)
        | with_unfolding_all rfl

/-- C4 witness: two indicators (sum exactly 0.5, not above the threshold)
trigger via the count disjunct; no indicators trigger nothing. -/
theorem c4_distress_trigger_witness :
    ((detectDistress "user" true true false false).map Alert.confidence =
        some (min (indicatorConfidence true true false false) 0.9)) ∧
      detectDistress "user" false false false false = none :=
  ⟨(c4_distress_trigger "user" true true false false).1
      (Or.inl (by with_unfolding_all decide)),
    (c4_distress_trigger "user" false false false false).2
      (by with_unfolding_all decide)⟩

/-- C5: the crash detector's vehicle-context gate: whenever the maximum of
the recent speed samples is below the initialized
`min_vehicle_speed = 25` km/h, the detector returns no alert, whatever
the deceleration works out to and whatever G-force spikes the IMU data
contains (the gate returns before either is examined). -/
theorem c5_vehicle_context_gate (userId : String) (now : ℚ) (buf : Option UserBuffer)
    (sd : SensorData) (h : maxRecentSpeed now buf < 25) :
    detectCrash crashThresholds userId now buf sd = none := by
  have h25 : maxRecentSpeed now buf < crashThresholds.min_vehicle_speed := h
  simp only [detectCrash]
  split_ifs <;> rfl

/-- Buffer for the C5 witness: five recent samples, all at speed 0. -/
def c5Buf : UserBuffer :=
  { dataHistory :=
      [⟨60, ⟨some ⟨0, 0, 0⟩, []⟩⟩, ⟨65, ⟨some ⟨0, 0, 0⟩, []⟩⟩, ⟨70, ⟨some ⟨0, 0, 0⟩, []⟩⟩,
       ⟨75, ⟨some ⟨0, 0, 0⟩, []⟩⟩, ⟨80, ⟨some ⟨0, 0, 0⟩, []⟩⟩],
    locations := [], lastActivity := 80 }

/-- C5 witness: five buffered samples at speed 0 and a current sample with
a 100 G IMU spike still produce no crash alert. -/
theorem c5_vehicle_context_gate_witness :
    maxRecentSpeed 85 (some c5Buf) < 25 ∧
      detectCrash crashThresholds "user" 85 (some c5Buf)
        { location := some ⟨0, 0, 10⟩, imuData := [⟨100, 0, 0⟩] } = none :=
  ⟨by with_unfolding_all decide,
    c5_vehicle_context_gate "user" 85 (some c5Buf) _ (by with_unfolding_all decide)⟩

/-- C6: on any store whose zones all have nonempty polygons (true of the
seeded store and preserved by `add_zone`, which requires ≥ 3 vertices),
the breach query returns exactly the first zone, in insertion order,
whose polygon contains the point (`List.find?`), and the no-breach
`Safe Area` result (`breach_detected = false`) when no zone contains it —
in particular it never returns a later-listed zone when an earlier-listed
zone also contains the point. -/
theorem c6_breach_first_match (zones : List Zone) (lat lng : ℚ)
    (hv : ∀ z ∈ zones, z.coordinates ≠ []) :
    get_zone_info zones lat lng =
      some ((zones.find? (fun z => rayCastInside lat lng z.coordinates)).elim
        safeArea breachInfo) := by
  induction zones with
  | nil => rfl
  | cons z rest ih =>
    have hz : z.coordinates ≠ [] := hv z (List.mem_cons_self z rest)
    have hrest : ∀ w ∈ rest, w.coordinates ≠ [] := fun w hw => hv w (List.mem_cons_of_mem z hw)
    have hray := rayCasting_ok lat lng z.coordinates hz
    cases hc : rayCastInside lat lng z.coordinates with
    | false =>
      have hstep : get_zone_info (z :: rest) lat lng = get_zone_info rest lat lng := by
        simp only [get_zone_info, findZoneExc, hray, hc]
      rw [hstep, ih hrest, List.find?_cons_of_neg _ (by simp [hc])]
    | true =>
      simp only [get_zone_info, findZoneExc, hray, hc]
      rw [@List.find?_cons_of_pos Zone (fun w => rayCastInside lat lng w.coordinates) z rest hc]
      rfl

/-- C6 witness: the point (0, 0) lies in no seeded zone and yields the
safe-area dictionary; the centroid of the seeded Military Zone Alpha lies
inside it and yields that (first) zone's breach dictionary. -/
theorem c6_breach_first_match_witness :
    get_zone_info seededZones 0 0 = some safeArea ∧
      get_zone_info seededZones 26.91135 75.791075 =
        some (breachInfo
          { id := 1, name := "Military Zone Alpha", ztype := "Military",
            coordinates :=
              [⟨26.9124, 75.7873⟩, ⟨26.9150, 75.7900⟩, ⟨26.9100, 75.7950⟩, ⟨26.9080, 75.7920⟩],
            riskLevel := 5 }) := by
  constructor
  · rw [c6_breach_first_match seededZones 0 0 (by decide)]
    with_unfolding_all decide
  · rw [c6_breach_first_match seededZones 26.91135 75.791075 (by decide)]
    with_unfolding_all decide

/-- A store entry with a malformed (empty) polygon: the ray-casting helper
raises on it. -/
def badZone : Zone :=
  { id := 99, name := "Malformed", ztype := "Custom", coordinates := [], riskLevel := 1 }

/-- A distance computation that always raises, standing for a Haversine
failure inside `get_nearby_zones`. -/
def failDist : ℚ → ℚ → ℚ → ℚ → Except Unit ℚ := fun _ _ _ _ => .error ()

/-- C7: the public geometry operations never propagate an exception: any
internal error in the breach scan makes `check_point_in_polygon` return
`false` (not-breached), and any internal error in the nearby-zone scan
makes `get_nearby_zones` return the empty list; concretely, a store whose
first zone has a malformed polygon still yields `false` for every query
point, and a failing distance computation yields `[]` for every store and
query. -/
theorem c7_geometry_safe_defaults :
    (∀ zones lat lng, breachAnyExc zones lat lng = .error () →
        check_point_in_polygon zones lat lng = false) ∧
      (∀ dist zones lat lng radiusKm,
        nearbyExc dist zones lat lng radiusKm = .error () →
          get_nearby_zones dist zones lat lng radiusKm = []) ∧
      (∀ zones lat lng, check_point_in_polygon (badZone :: zones) lat lng = false) ∧
      (∀ zones lat lng radiusKm, get_nearby_zones failDist zones lat lng radiusKm = []) := by
  refine ⟨?_, ?_, ?_, ?_⟩
  · intro zones lat lng h
    simp [check_point_in_polygon, h]
  · intro dist zones lat lng radiusKm h
    simp [get_nearby_zones, h]
  · intro zones lat lng
    rfl
  · intro zones lat lng radiusKm
    cases zones with
    | nil => simp [get_nearby_zones, nearbyExc, nearbyCollect]
    | cons z rest => rfl

/-- C7 witness: both error paths exercised on a concrete malformed store. -/
theorem c7_geometry_safe_defaults_witness :
    check_point_in_polygon [badZone] 0 0 = false ∧
      get_nearby_zones failDist [badZone] 0 0 5 = [] :=
  ⟨c7_geometry_safe_defaults.1 [badZone] 0 0 rfl,
    c7_geometry_safe_defaults.2.1 failDist [badZone] 0 0 5 rfl⟩
